import Mathlib

/-!
Shallow embedding of the conversation/message reconciliation logic of the
mobile messaging client, together with proofs of the specification claims.

The embedding follows the source files:
  * the conversation-list screen (`HomeScreen`): snapshot merge
    (`updateConversationsSilently`), event-driven merge
    (`updateConversationWithNewMessage`, the `message:new` handler with its
    dedup-key set), unread clearing (`clearUnreadCountForConversation` and the
    read / conversation-opened handlers), and the debounce/in-flight refresh
    scheduler;
  * the chat screen (`ChatScreen`): the per-message delivery state
    (`is_delivered`/`is_read`) and its socket event handlers;
  * the socket service (`SocketService`): connection state and send gating.

Machine integers are modelled as `Int`/`Nat` (ids and counts never overflow in
the source's domain), timestamps and message bodies as `String`.
-/

/-- A conversation row as held by the conversation-list screen
(`interface Conversation` in the home screen source).  `unread_count` is the
already-parsed numeric form (the source normalises string counts with
`parseInt` before every merge). -/
structure Conversation where
  conversation_id : Int
  other_user_id : Int
  other_user_name : String
  other_user_online : Bool
  other_user_last_seen : String
  last_message : String
  last_message_time : String
  last_message_sender_id : Int
  unread_count : Nat
  other_user_typing : Bool
deriving Repr, DecidableEq

/-- A `message:new` socket event as consumed by the conversation-list screen:
`id` may be absent (the handler writes `message.id ?? ''` into the dedup key),
`content` absent defaults to the empty string (`message.content ?? ''`). -/
structure MessageEvent where
  id : Option Int
  conversationId : Int
  sender_id : Int
  created_at : String
  content : String
deriving Repr, DecidableEq

/-- `updateConversationWithNewMessage`: for the conversation matching the
event's id, overwrite the last-message summary from the event, increment the
unread count exactly when the sender is not the local user, and keep the
online / last-seen / typing fields from the existing row. -/
def updateConversationWithNewMessage (localUserId : Int)
    (convs : List Conversation) (m : MessageEvent) : List Conversation :=
  convs.map fun conv =>
    if conv.conversation_id = m.conversationId then
      { conv with
        last_message := m.content
        last_message_time := m.created_at
        last_message_sender_id := m.sender_id
        unread_count :=
          if m.sender_id ≠ localUserId then conv.unread_count + 1
          else conv.unread_count }
    else conv

/-- `clearUnreadCountForConversation`: zero the unread count of the matching
conversation, leaving every other field and row untouched. -/
def clearUnreadCountForConversation (conversationId : Int)
    (convs : List Conversation) : List Conversation :=
  convs.map fun conv =>
    if conv.conversation_id = conversationId then
      { conv with unread_count := 0 }
    else conv

/-- A read / conversation-opened socket event payload
(`{conversationId, userId}`). -/
structure ReadEvent where
  conversationId : Int
  userId : Int
deriving Repr, DecidableEq

/-- The shared body of the `message:read`, `conversation_opened` and custom
`conversation_opened` handlers of the conversation-list screen:
`if (data.conversationId && data.userId === currentUser?.id)` clear the
unread count, otherwise ignore the event.  JavaScript truthiness of
`data.conversationId` is modelled as `≠ 0`. -/
def applyReadEvent (localUserId : Int) (convs : List Conversation)
    (e : ReadEvent) : List Conversation :=
  if e.conversationId ≠ 0 ∧ e.userId = localUserId then
    clearUnreadCountForConversation e.conversationId convs
  else
    convs

/-- The per-incoming-row snapshot merge of `updateConversationsSilently`:
if a local row with the same conversation id exists, compute the freshness
test `shouldPreserveUnreadCount` over the three last-message fields; keep the
local unread count exactly when the test passes and the local count is
strictly greater, and always carry the locally-tracked typing flag; all other
fields come from the incoming row. -/
def mergeSnapshotConv (prev : List Conversation) (newConv : Conversation) :
    Conversation :=
  match prev.find? (fun c => c.conversation_id == newConv.conversation_id) with
  | some existingConv =>
      let shouldPreserveUnreadCount :=
        existingConv.last_message_time == newConv.last_message_time &&
        existingConv.last_message == newConv.last_message &&
        existingConv.last_message_sender_id == newConv.last_message_sender_id
      let finalUnreadCount :=
        if shouldPreserveUnreadCount ∧
            existingConv.unread_count > newConv.unread_count then
          existingConv.unread_count
        else
          newConv.unread_count
      { newConv with
        other_user_typing := existingConv.other_user_typing
        unread_count := finalUnreadCount }
  | none => newConv

/-- The snapshot merge of `updateConversationsSilently`: the merged list is
the incoming snapshot, each row merged against the previous local state. -/
def updateConversationsSilentlyMerge (prev incoming : List Conversation) :
    List Conversation :=
  incoming.map (mergeSnapshotConv prev)

/-- The composite deduplication key built by the conversation-list
`message:new` handler:
`(message.id ?? '') + '|' + conversationId + '|' + sender_id + '|' +
created_at + '|' + (content ?? '')`. -/
def messageKey (m : MessageEvent) : String :=
  (match m.id with
   | some i => toString i
   | none => "") ++ "|" ++ toString m.conversationId ++ "|" ++
  toString m.sender_id ++ "|" ++ m.created_at ++ "|" ++ m.content

/-- The conversation-list state touched synchronously by the `message:new`
handler: the conversation rows and the `processedMessageKeysRef` set
(modelled as a list with membership). -/
structure ListState where
  conversations : List Conversation
  processedKeys : List String
deriving Repr, DecidableEq

/-- `checkAndAddNewConversation` (data part): when the event's conversation
id is unknown in the current rows, fetch the snapshot `pull`, look the id up
and insert the row at the front — re-checking against the rows as they stand
after the event merge (`updated`) that the id is still absent; when the id is
known locally, or absent from the snapshot, the rows are left as they are
(the source then only logs or schedules a silent sync). -/
def checkAndAddNewConversation (pull stConvs updated : List Conversation)
    (conversationId : Int) : List Conversation :=
  if stConvs.any (fun c => c.conversation_id == conversationId) = true then
    updated
  else
    match pull.find? (fun c => c.conversation_id == conversationId) with
    | some newConv =>
        if updated.any (fun c => c.conversation_id == conversationId) = true then
          updated
        else
          newConv :: updated
    | none => updated

/-- One application of the conversation-list `message:new` handler.
`if (message.conversationId)` (truthiness, `≠ 0`) guards the whole body;
an event whose dedup key was already processed returns early; otherwise the
key is recorded, the matching row is merged via
`updateConversationWithNewMessage`, and `checkAndAddNewConversation` handles
a possibly-new conversation id against the snapshot `pull`. -/
def applyNewMessageEvent (localUserId : Int) (pull : List Conversation)
    (st : ListState) (m : MessageEvent) : ListState :=
  if m.conversationId = 0 then st
  else if st.processedKeys.contains (messageKey m) = true then st
  else
    { conversations :=
        checkAndAddNewConversation pull st.conversations
          (updateConversationWithNewMessage localUserId st.conversations m)
          m.conversationId,
      processedKeys := messageKey m :: st.processedKeys }

/-- A message row as held by the chat screen (`interface Message`), reduced
to the fields the delivery state machine reads and writes. -/
structure Message where
  id : Int
  conversation_id : Int
  sender_id : Int
  content : String
  is_delivered : Bool
  is_read : Bool
  created_at : String
deriving Repr, DecidableEq

/-- Payload of a `message:delivered` socket event
(`{conversationId, messageId}`). -/
structure DeliveredEvent where
  conversationId : Int
  messageId : Int
deriving Repr, DecidableEq

/-- Payload of a `message:read` socket event as consumed by the chat screen:
`messageIds` may be absent (the handler reads `data.messageIds?.includes`,
absent behaving as an empty list). -/
structure ChatReadEvent where
  conversationId : Int
  messageIds : Option (List Int)
deriving Repr, DecidableEq

/-- The chat screen's `message:delivered` handler: for the open conversation,
set `is_delivered` on the message with the matching id; nothing else
changes. -/
def onMessageDelivered (conversationId : Int) (msgs : List Message)
    (e : DeliveredEvent) : List Message :=
  if e.conversationId = conversationId then
    msgs.map fun msg =>
      if msg.id = e.messageId then { msg with is_delivered := true } else msg
  else msgs

/-- The chat screen's `message:read` handler: for the open conversation, set
`is_read` on every message whose id is listed in `messageIds`; the handler
writes `is_read` only — `is_delivered` is not touched. -/
def onMessageReadChat (conversationId : Int) (msgs : List Message)
    (e : ChatReadEvent) : List Message :=
  if e.conversationId = conversationId then
    msgs.map fun msg =>
      if (e.messageIds.getD []).contains msg.id = true then
        { msg with is_read := true }
      else msg
  else msgs

/-- `updatePendingMessageDeliveryStatus`: when the other user comes online,
every own message not yet delivered is optimistically promoted to
delivered. -/
def updatePendingMessageDeliveryStatus (currentUserId : Int)
    (msgs : List Message) : List Message :=
  msgs.map fun msg =>
    if msg.sender_id = currentUserId ∧ msg.is_delivered = false then
      { msg with is_delivered := true }
    else msg

/-- The inbound chat-screen events that touch delivery state: a delivery
confirmation, a read receipt, and the other user's offline-to-online
presence transition (which triggers
`updatePendingMessageDeliveryStatus`). -/
inductive ChatEvent where
  | delivered (e : DeliveredEvent)
  | read (e : ChatReadEvent)
  | recipientOnline
deriving Repr, DecidableEq

/-- Dispatch of one inbound chat event to its handler, as wired in the chat
screen's socket listeners. -/
def chatStep (conversationId currentUserId : Int)
    (msgs : List Message) : ChatEvent → List Message
  | ChatEvent.delivered e => onMessageDelivered conversationId msgs e
  | ChatEvent.read e => onMessageReadChat conversationId msgs e
  | ChatEvent.recipientOnline =>
      updatePendingMessageDeliveryStatus currentUserId msgs

/-- The rendered delivery state of a message, in the order the chat screen's
tick logic tests the flags: read before delivered before sent. -/
def deliveryRank (msg : Message) : Nat :=
  if msg.is_read = true then 2 else if msg.is_delivered = true then 1 else 0

/-- A `message:new` socket event as consumed by the chat screen; it carries a
server-assigned id, flags, and an optional `deliveryStatus` tag that the
handler folds into `is_delivered`. -/
structure ChatNewMessageEvent where
  id : Int
  conversationId : Int
  sender_id : Int
  content : String
  created_at : String
  is_delivered : Bool
  is_read : Bool
  deliveryStatus : Option String
deriving Repr, DecidableEq

/-- The chat screen's `message:new` handler: only events for the open
conversation are considered; if a message with the same id is already in the
list the event is dropped, otherwise the message is appended with
`is_delivered` forced when `deliveryStatus` is `'delivered'`. -/
def onNewMessageChat (conversationId : Int) (msgs : List Message)
    (m : ChatNewMessageEvent) : List Message :=
  if m.conversationId = conversationId then
    if msgs.any (fun msg => msg.id == m.id) = true then
      msgs
    else
      msgs ++ [{ id := m.id, conversation_id := m.conversationId,
                 sender_id := m.sender_id, content := m.content,
                 is_delivered :=
                   (m.deliveryStatus == some "delivered") || m.is_delivered,
                 is_read := m.is_read, created_at := m.created_at }]
  else msgs

/-- Connection-related state of `SocketService`: whether a socket object
exists (`this.socket !== null`), the `isConnected` flag the service
maintains, and a ghost flag `authReceived` recording whether the
`authenticated` lifecycle event has arrived in the current connect cycle
(the source keeps no such variable — which is exactly what the gating claim
turns on). -/
structure SocketState where
  hasSocket : Bool
  isConnected : Bool
  authReceived : Bool
deriving Repr, DecidableEq

/-- State right after `io(socketUrl, ...)` returns inside `connect()`: the
socket object exists but no lifecycle event has fired yet. -/
def socketCreated : SocketState :=
  { hasSocket := true, isConnected := false, authReceived := false }

/-- The `connect` lifecycle handler: sets `isConnected = true` (and emits the
authenticate command); it does not wait for authentication. -/
def onConnectEvent (s : SocketState) : SocketState :=
  { s with isConnected := true }

/-- The `authenticated` lifecycle handler: starts the heartbeat; in the model
it records that authentication completed.  It does not touch
`isConnected`. -/
def onAuthenticatedEvent (s : SocketState) : SocketState :=
  { s with authReceived := true }

/-- The `authentication_error` lifecycle handler: clears `isConnected`. -/
def onAuthenticationErrorEvent (s : SocketState) : SocketState :=
  { s with isConnected := false }

/-- The `disconnect` lifecycle handler: clears `isConnected` (and stops the
heartbeat); the ghost `authReceived` flag is cleared because the connect
cycle ended. -/
def onDisconnectEvent (s : SocketState) : SocketState :=
  { s with isConnected := false, authReceived := false }

/-- An outbound command as emitted by the typed send operations. -/
inductive OutboundCommand where
  | message (conversationId : Int) (content : String) (senderId : Int)
  | typingStart (conversationId : Int) (userId : Int)
  | typingStop (conversationId : Int) (userId : Int)
  | markRead (conversationId : Int) (userId : Int)
  | joinRoom (conversationId : Int)
  | leaveRoom (conversationId : Int)
  | custom (eventName : String)
deriving Repr, DecidableEq

/-- The guard every typed send operation uses:
`if (this.socket && this.isConnected)`. -/
def canSend (s : SocketState) : Bool :=
  s.hasSocket && s.isConnected

/-- `sendMessage`: emits `message:send` when the guard passes, otherwise a
silent no-op (`none`, nothing queued). -/
def sendMessage (s : SocketState) (conversationId : Int) (content : String)
    (senderId : Int) : Option OutboundCommand :=
  if canSend s = true then
    some (OutboundCommand.message conversationId content senderId)
  else none

/-- `startTyping`: emits `typing:start` under the same guard. -/
def startTyping (s : SocketState) (conversationId userId : Int) :
    Option OutboundCommand :=
  if canSend s = true then
    some (OutboundCommand.typingStart conversationId userId)
  else none

/-- `stopTyping`: emits `typing:stop` under the same guard. -/
def stopTyping (s : SocketState) (conversationId userId : Int) :
    Option OutboundCommand :=
  if canSend s = true then
    some (OutboundCommand.typingStop conversationId userId)
  else none

/-- `markAsRead`: emits `message:read` under the same guard. -/
def markAsRead (s : SocketState) (conversationId userId : Int) :
    Option OutboundCommand :=
  if canSend s = true then
    some (OutboundCommand.markRead conversationId userId)
  else none

/-- `joinConversation`: emits `join` under the same guard. -/
def joinConversation (s : SocketState) (conversationId : Int) :
    Option OutboundCommand :=
  if canSend s = true then
    some (OutboundCommand.joinRoom conversationId)
  else none

/-- `leaveConversation`: emits `leave` under the same guard. -/
def leaveConversation (s : SocketState) (conversationId : Int) :
    Option OutboundCommand :=
  if canSend s = true then
    some (OutboundCommand.leaveRoom conversationId)
  else none

/-- `emitCustomEvent`: emits the named custom event under the same guard. -/
def emitCustomEvent (s : SocketState) (eventName : String) :
    Option OutboundCommand :=
  if canSend s = true then
    some (OutboundCommand.custom eventName)
  else none

/-- State of the debounced "conversations" refresh in the conversation-list
screen: `inFlight` is `isUpdatingConversations`, `pendingAt` the absolute
fire time of `updateTimeoutRef` (if a timer is pending), `pulls` counts
executions of the underlying pull, and `skips` counts logged skipped
calls. -/
structure SchedState where
  inFlight : Bool
  pendingAt : Option Nat
  pulls : Nat
  skips : Nat
deriving Repr, DecidableEq

/-- Idle initial scheduler state. -/
def schedInit : SchedState :=
  { inFlight := false, pendingAt := none, pulls := 0, skips := 0 }

/-- A call to `updateConversationsSilently` at time `t` with debounce
`delay`: while a refresh is in-flight the call is dropped (and the skip
logged); otherwise the existing timer is cleared and a fresh one is set for
`t + delay`. -/
def schedule (delay t : Nat) (s : SchedState) : SchedState :=
  if s.inFlight = true then { s with skips := s.skips + 1 }
  else { s with pendingAt := some (t + delay) }

/-- The debounce timer firing: marks in-flight, clears the pending timer,
and performs the pull (counted in `pulls`). -/
def fireTimer (s : SchedState) : SchedState :=
  match s.pendingAt with
  | some _ =>
      { s with pendingAt := none, inFlight := true, pulls := s.pulls + 1 }
  | none => s

/-- Completion of the in-flight pull (the `finally` block): clears in-flight
regardless of success or failure. -/
def completePull (_success : Bool) (s : SchedState) : SchedState :=
  { s with inFlight := false }

/-- Advance wall-clock to time `t`: a pending timer due at or before `t`
fires, otherwise nothing happens. -/
def stepTime (t : Nat) (s : SchedState) : SchedState :=
  match s.pendingAt with
  | some u => if u ≤ t then fireTimer s else s
  | none => s

/-- Run a sequence of `schedule` calls at the given (nondecreasing) times,
letting any due timer fire before each call. -/
def runCalls (delay : Nat) (ts : List Nat) (s : SchedState) : SchedState :=
  ts.foldl (fun s t => schedule delay t (stepTime t s)) s

/-- The shape of a failed API call as the shared response interceptor and
the catch blocks inspect it: `error.response?.status`, absent for
network-level failures. -/
structure ApiError where
  status : Option Int
deriving Repr, DecidableEq

/-- Side effects of a failed pull on the session: whether the stored auth
token and user were removed from storage, and whether the client redirected
to the login screen.  Full session teardown is both together. -/
structure FailureOutcome where
  credentialsCleared : Bool
  redirectedToLogin : Bool
deriving Repr, DecidableEq

/-- The response interceptor of the shared axios instance
(`api.interceptors.response.use` in the services API module): on every 401 —
whichever call site issued the request — it removes the stored auth token
and user before the error reaches the caller's catch block; it never
redirects ("You might want to emit an event here to redirect to login"). -/
def apiResponseInterceptorClears (e : ApiError) : Bool :=
  decide (e.status = some 401)

/-- A failed `updateConversationsSilently` pull, interceptor included: the
interceptor clears the credentials exactly on a 401; the component catch
only logs ("Don't redirect on silent update errors"), so there is never a
redirect, and the conversation rows are left exactly as they were for the
next scheduled cycle. -/
def updateConversationsSilentlyFailure (prev : List Conversation)
    (e : ApiError) : List Conversation × FailureOutcome :=
  (prev,
    { credentialsCleared := apiResponseInterceptorClears e,
      redirectedToLogin := false })

/-- A failed `refreshUserStatus` pull, interceptor included: the interceptor
clears the credentials on a 401, the component catch removes them again and
redirects to login exactly on a 401, and only logs otherwise; the rows are
not touched. -/
def refreshUserStatusFailure (prev : List Conversation) (e : ApiError) :
    List Conversation × FailureOutcome :=
  (prev,
    { credentialsCleared :=
        apiResponseInterceptorClears e || decide (e.status = some 401),
      redirectedToLogin := decide (e.status = some 401) })

/-- A failed `loadConversations` pull, interceptor included: identical 401
policy to `refreshUserStatusFailure` (its catch also removes the credentials
and redirects on a 401, and only logs otherwise); rows untouched. -/
def loadConversationsFailure (prev : List Conversation) (e : ApiError) :
    List Conversation × FailureOutcome :=
  (prev,
    { credentialsCleared :=
        apiResponseInterceptorClears e || decide (e.status = some 401),
      redirectedToLogin := decide (e.status = some 401) })

/-- C1.  Snapshot merge freshness rule: for a conversation present both
locally (`find?` succeeds) and in the incoming snapshot, the merged row keeps
the local unread count exactly when the three last-message fields agree and
the local count is strictly greater; in every other case it adopts the
incoming snapshot's count. -/
theorem snapshot_merge_freshness_rule
    (prev incoming : List Conversation) (i : Nat) (n e : Conversation)
    (hn : incoming[i]? = some n)
    (he : prev.find? (fun c => c.conversation_id == n.conversation_id) = some e) :
    ∃ m, (updateConversationsSilentlyMerge prev incoming)[i]? = some m ∧
      m.unread_count =
        (if (e.last_message_time = n.last_message_time ∧
              e.last_message = n.last_message ∧
              e.last_message_sender_id = n.last_message_sender_id) ∧
            e.unread_count > n.unread_count then
          e.unread_count
        else
          n.unread_count) := by
  refine ⟨mergeSnapshotConv prev n, ?_, ?_⟩
  · simp [updateConversationsSilentlyMerge, hn]
  · simp only [mergeSnapshotConv, he]
    by_cases hfresh : e.last_message_time = n.last_message_time ∧
        e.last_message = n.last_message ∧
        e.last_message_sender_id = n.last_message_sender_id
    · by_cases hgt : e.unread_count > n.unread_count
      · simp [hfresh.1, hfresh.2.1, hfresh.2.2, hgt]
      · simp [hfresh.1, hfresh.2.1, hfresh.2.2, hgt]
    · rw [if_neg, if_neg]
      · exact fun h => hfresh ⟨h.1.1, h.1.2⟩
      · intro h
        rcases h with ⟨hb, _⟩
        simp only [Bool.and_eq_true, beq_iff_eq] at hb
        exact hfresh ⟨hb.1.1, hb.1.2, hb.2⟩

/-- Witness for C1 at the spec's Example 2: local conversation 7 with
`unreadCount = 3`, incoming snapshot row with identical last-message fields
and `unreadCount = 1`; the merged row keeps 3. -/
theorem snapshot_merge_freshness_rule_witness :
    ∃ m, (updateConversationsSilentlyMerge
        [⟨7, 9, "bob", true, "t0", "hello", "t1", 9, 3, false⟩]
        [⟨7, 9, "bob", true, "t0", "hello", "t1", 9, 1, false⟩])[0]? = some m ∧
      m.unread_count =
        (if ((("t1" : String) = "t1" ∧ ("hello" : String) = "hello" ∧
              (9 : Int) = 9) ∧ 3 > 1) then 3 else 1) :=
  snapshot_merge_freshness_rule
    [⟨7, 9, "bob", true, "t0", "hello", "t1", 9, 3, false⟩]
    [⟨7, 9, "bob", true, "t0", "hello", "t1", 9, 1, false⟩]
    0
    ⟨7, 9, "bob", true, "t0", "hello", "t1", 9, 1, false⟩
    ⟨7, 9, "bob", true, "t0", "hello", "t1", 9, 3, false⟩
    (by rfl) (by rfl)

/-- C4.  Event-driven merge postcondition: for a `message:new` event matching
a known local conversation, `updateConversationWithNewMessage` rewrites the
last-message summary from the event, adds 1 to the unread count exactly when
the sender is not the local user, and leaves the online, last-seen and typing
fields unchanged. -/
theorem event_merge_postcondition
    (localUserId : Int) (convs : List Conversation) (m : MessageEvent)
    (i : Nat) (c : Conversation)
    (hc : convs[i]? = some c)
    (hid : c.conversation_id = m.conversationId) :
    ∃ d, (updateConversationWithNewMessage localUserId convs m)[i]? = some d ∧
      d.last_message = m.content ∧
      d.last_message_time = m.created_at ∧
      d.last_message_sender_id = m.sender_id ∧
      (d.unread_count = c.unread_count + 1 ↔ m.sender_id ≠ localUserId) ∧
      (m.sender_id = localUserId → d.unread_count = c.unread_count) ∧
      d.other_user_online = c.other_user_online ∧
      d.other_user_typing = c.other_user_typing ∧
      d.other_user_last_seen = c.other_user_last_seen := by
  refine ⟨{ c with
      last_message := m.content
      last_message_time := m.created_at
      last_message_sender_id := m.sender_id
      unread_count :=
        if m.sender_id ≠ localUserId then c.unread_count + 1
        else c.unread_count }, ?_, ?_⟩
  · simp [updateConversationWithNewMessage, hc, hid]
  · by_cases hs : m.sender_id = localUserId
    · simp [hs]
    · simp [hs]

/-- Witness for C4: conversation 7 with unread count 2 receives a message
from user 9 (local user is 1); the merged row carries the event's summary and
unread count 3. -/
theorem event_merge_postcondition_witness :
    ∃ d, (updateConversationWithNewMessage 1
        [⟨7, 9, "bob", true, "t0", "old", "t1", 1, 2, false⟩]
        ⟨some 101, 7, 9, "t2", "new"⟩)[0]? = some d ∧
      d.last_message = "new" ∧
      d.last_message_time = "t2" ∧
      d.last_message_sender_id = 9 ∧
      (d.unread_count = 2 + 1 ↔ (9 : Int) ≠ 1) ∧
      ((9 : Int) = 1 → d.unread_count = 2) ∧
      d.other_user_online = true ∧
      d.other_user_typing = false ∧
      d.other_user_last_seen = "t0" :=
  event_merge_postcondition 1
    [⟨7, 9, "bob", true, "t0", "old", "t1", 1, 2, false⟩]
    ⟨some 101, 7, 9, "t2", "new"⟩ 0
    ⟨7, 9, "bob", true, "t0", "old", "t1", 1, 2, false⟩
    (by rfl) (by rfl)

/-- C3.  Self-scoping of unread clearing: a read / conversation-opened event
whose user id differs from the local session's user id leaves the
conversation list — in particular every unread count — unchanged, and any
row whose unread count the handler changes was changed by an event whose user
id equals the local user's. -/
theorem read_event_self_scoping
    (localUserId : Int) (convs : List Conversation) (e : ReadEvent)
    (hne : e.userId ≠ localUserId) :
    applyReadEvent localUserId convs e = convs := by
  unfold applyReadEvent
  rw [if_neg]
  intro h
  exact hne h.2

/-- Witness for C3: an opened event for conversation 7 scoped to user 9 while
the local user is 1 leaves the list (local unread count 3) unchanged. -/
theorem read_event_self_scoping_witness :
    applyReadEvent 1
      [⟨7, 9, "bob", true, "t0", "hello", "t1", 9, 3, false⟩]
      ⟨7, 9⟩ =
    [⟨7, 9, "bob", true, "t0", "hello", "t1", 9, 3, false⟩] :=
  read_event_self_scoping 1
    [⟨7, 9, "bob", true, "t0", "hello", "t1", 9, 3, false⟩]
    ⟨7, 9⟩ (by decide)

/-- Helper: an event whose dedup key is already in the processed set is
discarded (the handler returns the state unchanged). -/
theorem applyNewMessageEvent_skip (localUserId : Int) (pull : List Conversation)
    (st : ListState) (m : MessageEvent)
    (h0 : ¬ m.conversationId = 0)
    (hk : st.processedKeys.contains (messageKey m) = true) :
    applyNewMessageEvent localUserId pull st m = st := by
  unfold applyNewMessageEvent
  rw [if_neg h0, if_pos hk]

/-- Helper: after processing an event with a truthy conversation id, its
dedup key is in the processed set. -/
theorem applyNewMessageEvent_key_mem (localUserId : Int)
    (pull : List Conversation) (st : ListState) (m : MessageEvent)
    (h0 : ¬ m.conversationId = 0) :
    (applyNewMessageEvent localUserId pull st m).processedKeys.contains
      (messageKey m) = true := by
  by_cases hk : st.processedKeys.contains (messageKey m) = true
  · rw [applyNewMessageEvent_skip localUserId pull st m h0 hk]
    exact hk
  · unfold applyNewMessageEvent
    rw [if_neg h0, if_neg hk]
    simp

/-- Helper: for a fresh key and a locally-known conversation id, the handler
records the key and merges the matching row. -/
theorem applyNewMessageEvent_known (localUserId : Int)
    (pull : List Conversation) (st : ListState) (m : MessageEvent)
    (h0 : ¬ m.conversationId = 0)
    (hk : ¬ st.processedKeys.contains (messageKey m) = true)
    (hmem : st.conversations.any
      (fun c => c.conversation_id == m.conversationId) = true) :
    applyNewMessageEvent localUserId pull st m =
      { conversations :=
          updateConversationWithNewMessage localUserId st.conversations m,
        processedKeys := messageKey m :: st.processedKeys } := by
  unfold applyNewMessageEvent
  rw [if_neg h0, if_neg hk]
  unfold checkAndAddNewConversation
  rw [if_pos hmem]

/-- C2.  Message-event idempotence via the dedup key: applying the same
`message:new` event twice yields the state obtained by applying it once (the
second application finds its composite key already processed and is
discarded); in particular a duplicated event from another sender increases a
known conversation's unread count by exactly 1, not 2. -/
theorem message_event_idempotent
    (localUserId : Int) (pull : List Conversation) (st : ListState)
    (m : MessageEvent) :
    applyNewMessageEvent localUserId pull
        (applyNewMessageEvent localUserId pull st m) m =
      applyNewMessageEvent localUserId pull st m ∧
    (∀ (i : Nat) (c : Conversation), ¬ m.conversationId = 0 →
      st.processedKeys.contains (messageKey m) = false →
      st.conversations[i]? = some c →
      c.conversation_id = m.conversationId →
      ¬ m.sender_id = localUserId →
      ∃ d, (applyNewMessageEvent localUserId pull
          (applyNewMessageEvent localUserId pull st m) m).conversations[i]? =
            some d ∧
        d.unread_count = c.unread_count + 1) := by
  constructor
  · by_cases h0 : m.conversationId = 0
    · have hst : applyNewMessageEvent localUserId pull st m = st := by
        unfold applyNewMessageEvent
        rw [if_pos h0]
      rw [hst, hst]
    · exact applyNewMessageEvent_skip localUserId pull _ m h0
        (applyNewMessageEvent_key_mem localUserId pull st m h0)
  · intro i c h0 hk hc hid hs
    have hcmem : c ∈ st.conversations := List.getElem?_mem hc
    have hmem : st.conversations.any
        (fun cc => cc.conversation_id == m.conversationId) = true := by
      rw [List.any_eq_true]
      exact ⟨c, hcmem, by simp [hid]⟩
    have hfirst := applyNewMessageEvent_known localUserId pull st m h0
      (by rw [hk]; exact Bool.false_ne_true) hmem
    have hsecond := applyNewMessageEvent_skip localUserId pull _ m h0
      (applyNewMessageEvent_key_mem localUserId pull st m h0)
    rw [hsecond, hfirst]
    refine ⟨{ c with
        last_message := m.content
        last_message_time := m.created_at
        last_message_sender_id := m.sender_id
        unread_count := c.unread_count + 1 }, ?_, rfl⟩
    simp [updateConversationWithNewMessage, hc, hid, hs]

/-- Witness for C2 at the spec's Example 1: conversation 7 with unread count
0, event `message:new{conversationId 7, senderId 9, id 101}` (local user 1)
applied twice; the unread count ends at exactly 1. -/
theorem message_event_idempotent_witness :
    ∃ d, (applyNewMessageEvent 1 []
        (applyNewMessageEvent 1 []
          ⟨[⟨7, 9, "bob", true, "t0", "old", "t1", 1, 0, false⟩], []⟩
          ⟨some 101, 7, 9, "t2", "hi"⟩)
        ⟨some 101, 7, 9, "t2", "hi"⟩).conversations[0]? = some d ∧
      d.unread_count = 0 + 1 :=
  (message_event_idempotent 1 []
      ⟨[⟨7, 9, "bob", true, "t0", "old", "t1", 1, 0, false⟩], []⟩
      ⟨some 101, 7, 9, "t2", "hi"⟩).2
    0 ⟨7, 9, "bob", true, "t0", "old", "t1", 1, 0, false⟩
    (by decide) (by rfl) (by rfl) (by rfl) (by decide)

/-- Helper: one inbound chat event never clears `is_delivered` or `is_read`
and never lowers the rendered delivery state. -/
theorem chatStep_preserves_flags (conversationId currentUserId : Int)
    (msgs : List Message) (ev : ChatEvent) (i : Nat) (m : Message)
    (hm : msgs[i]? = some m) :
    ∃ m2, (chatStep conversationId currentUserId msgs ev)[i]? = some m2 ∧
      (m.is_delivered = true → m2.is_delivered = true) ∧
      (m.is_read = true → m2.is_read = true) ∧
      deliveryRank m ≤ deliveryRank m2 := by
  cases ev with
  | delivered e =>
      show ∃ m2, (onMessageDelivered conversationId msgs e)[i]? = some m2 ∧ _
      unfold onMessageDelivered
      by_cases hcv : e.conversationId = conversationId
      · rw [if_pos hcv]
        by_cases hid : m.id = e.messageId
        · refine ⟨{ m with is_delivered := true }, by simp [hm, hid],
            fun _ => rfl, fun h => h, ?_⟩
          cases hr : m.is_read <;> cases hd : m.is_delivered <;>
            simp [deliveryRank, hr, hd]
        · exact ⟨m, by simp [hm, hid], fun h => h, fun h => h, le_rfl⟩
      · rw [if_neg hcv]
        exact ⟨m, hm, fun h => h, fun h => h, le_rfl⟩
  | read e =>
      show ∃ m2, (onMessageReadChat conversationId msgs e)[i]? = some m2 ∧ _
      unfold onMessageReadChat
      by_cases hcv : e.conversationId = conversationId
      · rw [if_pos hcv]
        by_cases hid : (e.messageIds.getD []).contains m.id = true
        · refine ⟨{ m with is_read := true },
            by simp only [List.getElem?_map, hm, Option.map_some']
               rw [if_pos hid],
            fun h => h, fun _ => rfl, ?_⟩
          cases hr : m.is_read <;> cases hd : m.is_delivered <;>
            simp [deliveryRank, hr, hd]
        · refine ⟨m, ?_, fun h => h, fun h => h, le_rfl⟩
          simp only [List.getElem?_map, hm, Option.map_some']
          rw [if_neg hid]
      · rw [if_neg hcv]
        exact ⟨m, hm, fun h => h, fun h => h, le_rfl⟩
  | recipientOnline =>
      show ∃ m2,
        (updatePendingMessageDeliveryStatus currentUserId msgs)[i]? = some m2 ∧ _
      unfold updatePendingMessageDeliveryStatus
      by_cases hp : m.sender_id = currentUserId ∧ m.is_delivered = false
      · refine ⟨{ m with is_delivered := true }, by simp [hm, hp.1, hp.2],
          fun _ => rfl, fun h => h, ?_⟩
        cases hr : m.is_read <;> cases hd : m.is_delivered <;>
          simp [deliveryRank, hr, hd]
      · refine ⟨m, ?_, fun h => h, fun h => h, le_rfl⟩
        simp only [List.getElem?_map, hm, Option.map_some']
        rw [if_neg hp]

/-- Helper: over any sequence of inbound chat events, `is_delivered` and
`is_read` are never cleared and the rendered delivery state never
regresses. -/
theorem chatSteps_preserve_flags (conversationId currentUserId : Int)
    (events : List ChatEvent) (msgs : List Message) (i : Nat) (m : Message)
    (hm : msgs[i]? = some m) :
    ∃ m2, (events.foldl (chatStep conversationId currentUserId) msgs)[i]? =
        some m2 ∧
      (m.is_delivered = true → m2.is_delivered = true) ∧
      (m.is_read = true → m2.is_read = true) ∧
      deliveryRank m ≤ deliveryRank m2 := by
  induction events generalizing msgs m with
  | nil => exact ⟨m, hm, fun h => h, fun h => h, le_rfl⟩
  | cons ev evs ih =>
      obtain ⟨m1, hm1, hd1, hr1, hk1⟩ :=
        chatStep_preserves_flags conversationId currentUserId msgs ev i m hm
      obtain ⟨m2, hm2, hd2, hr2, hk2⟩ :=
        ih (chatStep conversationId currentUserId msgs ev) m1 hm1
      exact ⟨m2, by simpa using hm2, fun h => hd2 (hd1 h),
        fun h => hr2 (hr1 h), le_trans hk1 hk2⟩

/-- C8.  Delivery-state monotonicity: over any sequence of inbound
delivery-confirmation, read, and recipient-presence events, no handler ever
changes `is_delivered` from true to false or `is_read` from true to false,
and the rendered delivery state (Sent < Delivered < Read, in the order the
tick logic tests the flags) never moves backward. -/
theorem delivery_state_monotonic (conversationId currentUserId : Int)
    (events : List ChatEvent) (msgs : List Message) (i : Nat) (m : Message)
    (hm : msgs[i]? = some m) :
    ∃ m2, (events.foldl (chatStep conversationId currentUserId) msgs)[i]? =
        some m2 ∧
      (m.is_delivered = true → m2.is_delivered = true) ∧
      (m.is_read = true → m2.is_read = true) ∧
      deliveryRank m ≤ deliveryRank m2 :=
  chatSteps_preserve_flags conversationId currentUserId events msgs i m hm

/-- Witness for C8 at the spec's Example 4: a message `Sent` receives a
delivery confirmation and then a read receipt; the flags only ever move
forward. -/
theorem delivery_state_monotonic_witness :
    ∃ m2, ([ChatEvent.delivered ⟨7, 101⟩,
        ChatEvent.read ⟨7, some [101]⟩].foldl (chatStep 7 1)
        [⟨101, 7, 1, "hi", false, false, "t1"⟩])[0]? = some m2 ∧
      ((⟨101, 7, 1, "hi", false, false, "t1"⟩ : Message).is_delivered = true →
        m2.is_delivered = true) ∧
      ((⟨101, 7, 1, "hi", false, false, "t1"⟩ : Message).is_read = true →
        m2.is_read = true) ∧
      deliveryRank ⟨101, 7, 1, "hi", false, false, "t1"⟩ ≤ deliveryRank m2 :=
  delivery_state_monotonic 7 1
    [ChatEvent.delivered ⟨7, 101⟩, ChatEvent.read ⟨7, some [101]⟩]
    [⟨101, 7, 1, "hi", false, false, "t1"⟩] 0
    ⟨101, 7, 1, "hi", false, false, "t1"⟩ (by rfl)

/-- C5 counterexample: the chat screen's `message:read` handler sets
`is_read` without touching `is_delivered`, so a read event listing the id of
a message still in the Sent state (`is_delivered = false`) produces
`is_read = true` with `is_delivered = false` — the claimed invariant
`read ⇒ delivered` fails at this concrete input. -/
theorem read_on_sent_counterexample :
    onMessageReadChat 7 [⟨101, 7, 1, "hi", false, false, "t1"⟩]
        ⟨7, some [101]⟩ =
      [⟨101, 7, 1, "hi", false, true, "t1"⟩] ∧
    ¬ ((⟨101, 7, 1, "hi", false, true, "t1"⟩ : Message).is_read = true →
       (⟨101, 7, 1, "hi", false, true, "t1"⟩ : Message).is_delivered = true) := by
  constructor
  · rfl
  · decide

/-- C5 amended: a `message:read` event sets `is_read` for the listed ids and
leaves `is_delivered` of every message unchanged; consequently
`is_read = true → is_delivered = true` holds after any sequence of inbound
events for every message that was already delivered, but a read event
applied to a still-Sent message yields `is_read = true` with
`is_delivered = false`. -/
theorem read_implies_delivered_amended (conversationId currentUserId : Int)
    (msgs : List Message) (e : ChatReadEvent) (events : List ChatEvent)
    (i : Nat) (m : Message) (hm : msgs[i]? = some m) :
    (∃ m1, (onMessageReadChat conversationId msgs e)[i]? = some m1 ∧
      m1.is_delivered = m.is_delivered) ∧
    (m.is_delivered = true →
      ∃ m2, (events.foldl (chatStep conversationId currentUserId) msgs)[i]? =
          some m2 ∧
        m2.is_delivered = true ∧ (m2.is_read = true → m2.is_delivered = true)) := by
  constructor
  · unfold onMessageReadChat
    by_cases hcv : e.conversationId = conversationId
    · rw [if_pos hcv]
      by_cases hid : (e.messageIds.getD []).contains m.id = true
      · refine ⟨{ m with is_read := true }, ?_, rfl⟩
        simp only [List.getElem?_map, hm, Option.map_some']
        rw [if_pos hid]
      · refine ⟨m, ?_, rfl⟩
        simp only [List.getElem?_map, hm, Option.map_some']
        rw [if_neg hid]
    · rw [if_neg hcv]
      exact ⟨m, hm, rfl⟩
  · intro hd
    obtain ⟨m2, hm2, hd2, _, _⟩ :=
      chatSteps_preserve_flags conversationId currentUserId events msgs i m hm
    exact ⟨m2, hm2, hd2 hd, fun _ => hd2 hd⟩

/-- Witness for the amended C5: a delivered message receives a read receipt;
`is_delivered` is untouched by the read handler and the invariant holds
afterwards. -/
theorem read_implies_delivered_amended_witness :
    (∃ m1, (onMessageReadChat 7 [⟨101, 7, 1, "hi", true, false, "t1"⟩]
        ⟨7, some [101]⟩)[0]? = some m1 ∧
      m1.is_delivered =
        (⟨101, 7, 1, "hi", true, false, "t1"⟩ : Message).is_delivered) ∧
    ((⟨101, 7, 1, "hi", true, false, "t1"⟩ : Message).is_delivered = true →
      ∃ m2, ([ChatEvent.read ⟨7, some [101]⟩].foldl (chatStep 7 1)
          [⟨101, 7, 1, "hi", true, false, "t1"⟩])[0]? = some m2 ∧
        m2.is_delivered = true ∧ (m2.is_read = true → m2.is_delivered = true)) :=
  read_implies_delivered_amended 7 1
    [⟨101, 7, 1, "hi", true, false, "t1"⟩]
    ⟨7, some [101]⟩ [ChatEvent.read ⟨7, some [101]⟩] 0
    ⟨101, 7, 1, "hi", true, false, "t1"⟩ (by rfl)

/-- Helper: one chat `message:new` event preserves distinctness of message
ids. -/
theorem onNewMessageChat_nodup (conversationId : Int) (msgs : List Message)
    (m : ChatNewMessageEvent) (hnd : (msgs.map Message.id).Nodup) :
    ((onNewMessageChat conversationId msgs m).map Message.id).Nodup := by
  unfold onNewMessageChat
  by_cases hcv : m.conversationId = conversationId
  · rw [if_pos hcv]
    by_cases hex : msgs.any (fun msg => msg.id == m.id) = true
    · rw [if_pos hex]
      exact hnd
    · rw [if_neg hex]
      have hnotin : m.id ∉ msgs.map Message.id := by
        intro hmem
        apply hex
        rw [List.any_eq_true]
        obtain ⟨msg, hmsg, hid⟩ := List.mem_map.mp hmem
        exact ⟨msg, hmsg, by simp [hid]⟩
      rw [List.map_append]
      rw [List.nodup_append]
      refine ⟨hnd, List.nodup_singleton _, ?_⟩
      intro a ha hb
      simp only [List.map_cons, List.map_nil, List.mem_singleton] at hb
      exact hnotin (hb ▸ ha)
  · rw [if_neg hcv]
    exact hnd

/-- C10.  Chat-view deduplication by message id: starting from a list with
pairwise-distinct message ids, any sequence of inbound `message:new` events
leaves the ids pairwise distinct, and an event for the open conversation
whose id is already present leaves the list unchanged — the chat view
deduplicates on the id alone. -/
theorem chat_view_dedup_by_id (conversationId : Int) (msgs : List Message)
    (events : List ChatNewMessageEvent)
    (hnd : (msgs.map Message.id).Nodup) :
    ((events.foldl (onNewMessageChat conversationId) msgs).map
        Message.id).Nodup ∧
    (∀ m, m.conversationId = conversationId →
      (∃ msg ∈ msgs, msg.id = m.id) →
      onNewMessageChat conversationId msgs m = msgs) := by
  constructor
  · induction events generalizing msgs with
    | nil => exact hnd
    | cons ev evs ih =>
        simp only [List.foldl_cons]
        exact ih (onNewMessageChat conversationId msgs ev)
          (onNewMessageChat_nodup conversationId msgs ev hnd)
  · intro m hcv ⟨msg, hmsg, hid⟩
    unfold onNewMessageChat
    rw [if_pos hcv, if_pos]
    rw [List.any_eq_true]
    exact ⟨msg, hmsg, by simp [hid]⟩

/-- Witness for C10: one message with id 101; a duplicate event with id 101
for the open conversation leaves the list unchanged and ids stay distinct. -/
theorem chat_view_dedup_by_id_witness :
    ((([⟨101, 7, 9, "hi", "t2", false, false, some "delivered"⟩] :
        List ChatNewMessageEvent).foldl (onNewMessageChat 7)
        [⟨101, 7, 9, "hi", false, false, "t1"⟩]).map Message.id).Nodup ∧
    (∀ m, m.conversationId = 7 →
      (∃ msg ∈ ([⟨101, 7, 9, "hi", false, false, "t1"⟩] : List Message),
        msg.id = m.id) →
      onNewMessageChat 7 [⟨101, 7, 9, "hi", false, false, "t1"⟩] m =
        [⟨101, 7, 9, "hi", false, false, "t1"⟩]) :=
  chat_view_dedup_by_id 7 [⟨101, 7, 9, "hi", false, false, "t1"⟩]
    [⟨101, 7, 9, "hi", "t2", false, false, some "delivered"⟩]
    (by simp)

/-- C9 counterexample: in the reachable state right after the `connect`
lifecycle event and before the `authenticated` event, the adapter is not yet
authenticated, and yet `sendMessage` emits — the send operations are gated on
`socket && isConnected` only, so the claimed no-op in every
not-connected-and-authenticated state is false at this concrete input. -/
theorem send_before_authenticated_counterexample :
    onConnectEvent socketCreated =
      ({ hasSocket := true, isConnected := true, authReceived := false } :
        SocketState) ∧
    (onConnectEvent socketCreated).authReceived = false ∧
    sendMessage (onConnectEvent socketCreated) 7 "hi" 9 ≠ none := by
  refine ⟨rfl, rfl, ?_⟩
  decide

/-- C9 amended: every typed send operation is a silent no-op — nothing
emitted, nothing queued — whenever the socket object is absent or
`isConnected` is false; the guard does not consult authentication, so a send
issued after `connect` but before `authenticated` is emitted. -/
theorem send_gating_amended (s : SocketState) (conversationId : Int)
    (content : String) (senderId userId : Int) (eventName : String)
    (h : ¬ (s.hasSocket = true ∧ s.isConnected = true)) :
    sendMessage s conversationId content senderId = none ∧
    startTyping s conversationId userId = none ∧
    stopTyping s conversationId userId = none ∧
    markAsRead s conversationId userId = none ∧
    joinConversation s conversationId = none ∧
    leaveConversation s conversationId = none ∧
    emitCustomEvent s eventName = none := by
  have hg : ¬ canSend s = true := by
    unfold canSend
    cases hs : s.hasSocket <;> cases hc : s.isConnected <;> simp_all
  unfold sendMessage startTyping stopTyping markAsRead joinConversation
    leaveConversation emitCustomEvent
  rw [if_neg hg, if_neg hg, if_neg hg, if_neg hg, if_neg hg, if_neg hg,
    if_neg hg]
  exact ⟨rfl, rfl, rfl, rfl, rfl, rfl, rfl⟩

/-- Witness for the amended C9: after a disconnect, every send operation is a
no-op. -/
theorem send_gating_amended_witness :
    sendMessage (onDisconnectEvent (onConnectEvent socketCreated)) 7 "hi" 9 =
      none ∧
    startTyping (onDisconnectEvent (onConnectEvent socketCreated)) 7 9 = none ∧
    stopTyping (onDisconnectEvent (onConnectEvent socketCreated)) 7 9 = none ∧
    markAsRead (onDisconnectEvent (onConnectEvent socketCreated)) 7 9 = none ∧
    joinConversation (onDisconnectEvent (onConnectEvent socketCreated)) 7 =
      none ∧
    leaveConversation (onDisconnectEvent (onConnectEvent socketCreated)) 7 =
      none ∧
    emitCustomEvent (onDisconnectEvent (onConnectEvent socketCreated))
      "conversation_opened" = none :=
  send_gating_amended (onDisconnectEvent (onConnectEvent socketCreated))
    7 "hi" 9 9 "conversation_opened" (by decide)

/-- Helper: advancing time does nothing when no timer is pending. -/
theorem stepTime_none (t : Nat) (s : SchedState) (h : s.pendingAt = none) :
    stepTime t s = s := by
  unfold stepTime
  rw [h]

/-- Helper: advancing time does nothing when the pending timer is not yet
due. -/
theorem stepTime_not_due (t u : Nat) (s : SchedState)
    (h : s.pendingAt = some u) (hd : ¬ u ≤ t) :
    stepTime t s = s := by
  unfold stepTime
  rw [h]
  show (if u ≤ t then fireTimer s else s) = s
  rw [if_neg hd]

/-- Helper: a schedule call while idle (re)sets the debounce timer. -/
theorem schedule_idle (delay t : Nat) (s : SchedState)
    (h : s.inFlight = false) :
    schedule delay t s = { s with pendingAt := some (t + delay) } := by
  unfold schedule
  rw [h]
  simp

/-- C7.  Refresh scheduler coalescing for the "conversations" key: a call
while a refresh is in-flight is a dropped no-op that only logs the skip; an
idle call (re)starts the delay timer, cancelling any pending one; the single
timer firing marks in-flight and performs the pull; completion clears
in-flight regardless of success or failure; and five calls within 100 ms,
under the 500 ms delay, execute exactly one pull. -/
theorem refresh_scheduler_coalescing :
    (∀ (delay t : Nat) (s : SchedState), s.inFlight = true →
      schedule delay t s = { s with skips := s.skips + 1 }) ∧
    (∀ (delay t : Nat) (s : SchedState), s.inFlight = false →
      schedule delay t s = { s with pendingAt := some (t + delay) }) ∧
    (∀ (s : SchedState) (u : Nat), s.pendingAt = some u →
      fireTimer s =
        { s with pendingAt := none, inFlight := true,
                 pulls := s.pulls + 1 }) ∧
    (∀ (success : Bool) (s : SchedState),
      (completePull success s).inFlight = false) ∧
    (∀ t1 t2 t3 t4 t5 : Nat, t1 ≤ t2 → t2 ≤ t3 → t3 ≤ t4 → t4 ≤ t5 →
      t5 ≤ t1 + 100 →
      (fireTimer (runCalls 500 [t1, t2, t3, t4, t5] schedInit)).pulls = 1 ∧
      (fireTimer (runCalls 500 [t1, t2, t3, t4, t5] schedInit)).inFlight =
        true) := by
  refine ⟨?_, ?_, ?_, ?_, ?_⟩
  · intro delay t s h
    unfold schedule
    rw [if_pos h]
  · exact fun delay t s h => schedule_idle delay t s h
  · intro s u h
    unfold fireTimer
    rw [h]
  · intro b s
    rfl
  · intro t1 t2 t3 t4 t5 h12 h23 h34 h45 h15
    have s1 : schedule 500 t1 (stepTime t1 schedInit) =
        ⟨false, some (t1 + 500), 0, 0⟩ := by
      rw [stepTime_none t1 schedInit rfl, schedule_idle 500 t1 schedInit rfl]
      rfl
    have s2 : schedule 500 t2
        (stepTime t2 (⟨false, some (t1 + 500), 0, 0⟩ : SchedState)) =
        ⟨false, some (t2 + 500), 0, 0⟩ := by
      rw [stepTime_not_due t2 (t1 + 500) _ rfl (by omega),
        schedule_idle 500 t2 _ rfl]
    have s3 : schedule 500 t3
        (stepTime t3 (⟨false, some (t2 + 500), 0, 0⟩ : SchedState)) =
        ⟨false, some (t3 + 500), 0, 0⟩ := by
      rw [stepTime_not_due t3 (t2 + 500) _ rfl (by omega),
        schedule_idle 500 t3 _ rfl]
    have s4 : schedule 500 t4
        (stepTime t4 (⟨false, some (t3 + 500), 0, 0⟩ : SchedState)) =
        ⟨false, some (t4 + 500), 0, 0⟩ := by
      rw [stepTime_not_due t4 (t3 + 500) _ rfl (by omega),
        schedule_idle 500 t4 _ rfl]
    have s5 : schedule 500 t5
        (stepTime t5 (⟨false, some (t4 + 500), 0, 0⟩ : SchedState)) =
        ⟨false, some (t5 + 500), 0, 0⟩ := by
      rw [stepTime_not_due t5 (t4 + 500) _ rfl (by omega),
        schedule_idle 500 t5 _ rfl]
    have hrun : runCalls 500 [t1, t2, t3, t4, t5] schedInit =
        ⟨false, some (t5 + 500), 0, 0⟩ := by
      unfold runCalls
      simp only [List.foldl_cons, List.foldl_nil]
      rw [s1, s2, s3, s4, s5]
    rw [hrun]
    exact ⟨rfl, rfl⟩

/-- Witness for C7 at the spec's Example 5: five calls at times 0, 25, 50,
75, 100 (within 100 ms) with the 500 ms delay; exactly one pull executes
when the surviving timer fires. -/
theorem refresh_scheduler_coalescing_witness :
    (fireTimer (runCalls 500 [0, 25, 50, 75, 100] schedInit)).pulls = 1 ∧
    (fireTimer (runCalls 500 [0, 25, 50, 75, 100] schedInit)).inFlight =
      true :=
  refresh_scheduler_coalescing.2.2.2.2 0 25 50 75 100 (by decide) (by decide)
    (by decide) (by decide) (by decide)

/-- C6 counterexample: a 401 on the debounced silent conversation-list pull
does not produce the claimed session teardown: the shared response
interceptor clears the stored credentials, but the redirect to login — the
other half of the claimed teardown — does not happen (the component catch
only logs), and the rows are unchanged. -/
theorem silent_pull_401_no_redirect_counterexample :
    updateConversationsSilentlyFailure
        [⟨7, 9, "bob", true, "t0", "hello", "t1", 9, 3, false⟩]
        ⟨some 401⟩ =
      ([⟨7, 9, "bob", true, "t0", "hello", "t1", 9, 3, false⟩],
        { credentialsCleared := true, redirectedToLogin := false }) ∧
    ¬ ({ credentialsCleared := true, redirectedToLogin := false } :
        FailureOutcome).redirectedToLogin = true := by
  exact ⟨by decide, by decide⟩

/-- C6 amended: on every failed conversation-list pull, the shared response
interceptor clears the stored auth token and user exactly when the failure
is a 401; on a 401 the initial load (`loadConversations`) and the periodic
status refresh (`refreshUserStatus`) additionally redirect to login — full
teardown — while the debounced silent pull (`updateConversationsSilently`)
never redirects; every non-401 failure is only logged, with no credential
clearing and no redirect; in all failure cases the in-memory conversation
rows are left exactly as they were, so the next scheduled cycle retries. -/
theorem pull_failure_policy_amended (prev : List Conversation)
    (e : ApiError) :
    (e.status = some 401 →
      updateConversationsSilentlyFailure prev e =
        (prev, { credentialsCleared := true, redirectedToLogin := false }) ∧
      refreshUserStatusFailure prev e =
        (prev, { credentialsCleared := true, redirectedToLogin := true }) ∧
      loadConversationsFailure prev e =
        (prev, { credentialsCleared := true, redirectedToLogin := true })) ∧
    (¬ e.status = some 401 →
      updateConversationsSilentlyFailure prev e =
        (prev, { credentialsCleared := false, redirectedToLogin := false }) ∧
      refreshUserStatusFailure prev e =
        (prev, { credentialsCleared := false, redirectedToLogin := false }) ∧
      loadConversationsFailure prev e =
        (prev, { credentialsCleared := false, redirectedToLogin := false })) := by
  constructor
  · intro h
    have hd : decide (e.status = some 401) = true := decide_eq_true h
    unfold updateConversationsSilentlyFailure refreshUserStatusFailure
      loadConversationsFailure apiResponseInterceptorClears
    rw [hd]
    exact ⟨rfl, rfl, rfl⟩
  · intro h
    have hd : decide (e.status = some 401) = false :=
      decide_eq_false h
    unfold updateConversationsSilentlyFailure refreshUserStatusFailure
      loadConversationsFailure apiResponseInterceptorClears
    rw [hd]
    exact ⟨rfl, rfl, rfl⟩

/-- Witness for the amended C6: a 401 on the silent pull clears credentials
without redirecting and preserves the single local row, while the status
refresh redirects; a network blip (status absent) is only logged
everywhere. -/
theorem pull_failure_policy_amended_witness :
    (updateConversationsSilentlyFailure
        [⟨7, 9, "bob", true, "t0", "hello", "t1", 9, 3, false⟩]
        ⟨some 401⟩ =
      ([⟨7, 9, "bob", true, "t0", "hello", "t1", 9, 3, false⟩],
        { credentialsCleared := true, redirectedToLogin := false }) ∧
      refreshUserStatusFailure
        [⟨7, 9, "bob", true, "t0", "hello", "t1", 9, 3, false⟩]
        ⟨some 401⟩ =
      ([⟨7, 9, "bob", true, "t0", "hello", "t1", 9, 3, false⟩],
        { credentialsCleared := true, redirectedToLogin := true }) ∧
      loadConversationsFailure
        [⟨7, 9, "bob", true, "t0", "hello", "t1", 9, 3, false⟩]
        ⟨some 401⟩ =
      ([⟨7, 9, "bob", true, "t0", "hello", "t1", 9, 3, false⟩],
        { credentialsCleared := true, redirectedToLogin := true })) ∧
    (updateConversationsSilentlyFailure
        [⟨7, 9, "bob", true, "t0", "hello", "t1", 9, 3, false⟩]
        ⟨none⟩ =
      ([⟨7, 9, "bob", true, "t0", "hello", "t1", 9, 3, false⟩],
        { credentialsCleared := false, redirectedToLogin := false }) ∧
      refreshUserStatusFailure
        [⟨7, 9, "bob", true, "t0", "hello", "t1", 9, 3, false⟩]
        ⟨none⟩ =
      ([⟨7, 9, "bob", true, "t0", "hello", "t1", 9, 3, false⟩],
        { credentialsCleared := false, redirectedToLogin := false }) ∧
      loadConversationsFailure
        [⟨7, 9, "bob", true, "t0", "hello", "t1", 9, 3, false⟩]
        ⟨none⟩ =
      ([⟨7, 9, "bob", true, "t0", "hello", "t1", 9, 3, false⟩],
        { credentialsCleared := false, redirectedToLogin := false })) :=
  ⟨(pull_failure_policy_amended
      [⟨7, 9, "bob", true, "t0", "hello", "t1", 9, 3, false⟩]
      ⟨some 401⟩).1 (by decide),
    (pull_failure_policy_amended
      [⟨7, 9, "bob", true, "t0", "hello", "t1", 9, 3, false⟩]
      ⟨none⟩).2 (by decide)⟩
